import Mathlib

/-!
Verification of the prepaid-wallet and session-reservation engine of the
XploreKodo learning-platform backend.

The Python services (`services/wallet_service.py`,
`services/voice_coaching_service.py`, `services/video_session_service.py`,
`config/costs.py`) are shallowly embedded below.  Python `Decimal` values are
modelled by `Rat` (all arithmetic the services perform on them — addition,
subtraction, multiplication, division by 100 — is exact, so `Rat` is a faithful
model).  SQLAlchemy commit/rollback semantics are modelled by purity: an
operation that raises before `commit` leaves the durable state unchanged, so a
failing operation returns the original state together with the error.
Identifier fields (UUIDs) are modelled by `Nat` supplied by the caller, and
presentation-only string fields (`description`, `currency`, timestamps
rendered to ISO strings) are not modelled; a timestamp column is modelled by a
`Bool` recording whether it has been stamped.  The store is per-user, so the
`user_id` filters of the services are modelled by working in one user's store.
-/

namespace XploreKodo

/-- Exact decimal amounts (Python `Decimal`). -/
abbrev Money := Rat

/-! ## config/costs.py -/

def VOICE_COACHING_STANDARD_COST_PER_MINUTE : Money := 2
def VOICE_COACHING_REALTIME_COST_PER_MINUTE : Money := 40
def VIDEO_SESSION_COST_PER_MINUTE : Money := 15

def MIN_VOICE_SESSION_DURATION : Nat := 5
def MAX_VOICE_SESSION_DURATION : Nat := 60
def MIN_VIDEO_SESSION_DURATION : Nat := 10
def MAX_VIDEO_SESSION_DURATION : Nat := 120

def TOPUP_BONUS_TIER_1_AMOUNT : Money := 1000
def TOPUP_BONUS_TIER_1_PERCENTAGE : Money := 10
def TOPUP_BONUS_TIER_2_AMOUNT : Money := 2000
def TOPUP_BONUS_TIER_2_PERCENTAGE : Money := 20

/-! ## db_models/wallet.py -/

/-- `TransactionType` enum. -/
inductive TransactionType where
  | topup
  | reserve
  | charge
  | refund
  | bonus
deriving Repr, DecidableEq

/-- `SessionStatus` enum. -/
inductive SessionStatus where
  | reserved
  | active
  | completed
  | cancelled
  | refunded
deriving Repr, DecidableEq

/-- `UserWallet` row (identifier and currency columns not modelled). -/
structure Wallet where
  balance : Money
  reserved_balance : Money
deriving Repr, DecidableEq

/-- `WalletTransaction` row.  `balance_before` and `balance_after` snapshot
whichever balance field the recording operation chose (`reserved_balance`
for reserve, `balance` otherwise). -/
structure WalletTransaction where
  transaction_type : TransactionType
  amount : Money
  balance_before : Money
  balance_after : Money
  session_id : Option Nat
deriving Repr, DecidableEq

/-- Errors raised by the services (`ValueError` in Python, classified by the
spec's taxonomy).  `insufficientBalance` carries the two amounts that the
Python error message interpolates (`Available`/`Balance` and `Required`). -/
inductive WalletError where
  | insufficientBalance (available required : Money)
  | invalidParameter (msg : String)
  | sessionNotFound
  | invalidState (status : SessionStatus)
deriving Repr, DecidableEq

/-! ## services/wallet_service.py -/

/-- `WalletService.get_or_create_wallet`: returns the existing wallet or a
fresh one with zero balances. -/
def get_or_create_wallet : Option Wallet → Wallet
  | some w => w
  | none => { balance := 0, reserved_balance := 0 }

/-- `WalletService.reserve_balance`.  Fails when
`available_balance < amount`; otherwise grows `reserved_balance` by `amount`
(leaving `balance` untouched) and records a `reserve`-type transaction whose
before/after snapshot is the `reserved_balance` field. -/
def reserve_balance (w : Wallet) (amount : Money) (session_id : Option Nat) :
    Except WalletError (Wallet × WalletTransaction) :=
  let available_balance := w.balance - w.reserved_balance
  if available_balance < amount then
    .error (.insufficientBalance available_balance amount)
  else
    let balance_before := w.reserved_balance
    let w2 : Wallet := { w with reserved_balance := w.reserved_balance + amount }
    let balance_after := w2.reserved_balance
    .ok (w2,
      { transaction_type := .reserve
        amount := amount
        balance_before := balance_before
        balance_after := balance_after
        session_id := session_id })

/-- `WalletService.finalize_reservation`.  Releases the earmark (clamped at 0
when the stored `reserved_balance` is smaller than `reserved_amount`), then
charges `actual_amount` against `balance`, failing when
`balance < actual_amount`; records a `charge`-type transaction over
`balance`. -/
def finalize_reservation (w : Wallet) (reserved_amount actual_amount : Money)
    (session_id : Nat) : Except WalletError (Wallet × WalletTransaction) :=
  let w1 : Wallet :=
    if w.reserved_balance ≥ reserved_amount then
      { w with reserved_balance := w.reserved_balance - reserved_amount }
    else
      { w with reserved_balance := 0 }
  if w1.balance < actual_amount then
    .error (.insufficientBalance w1.balance actual_amount)
  else
    let balance_before := w1.balance
    let w2 : Wallet := { w1 with balance := w1.balance - actual_amount }
    .ok (w2,
      { transaction_type := .charge
        amount := actual_amount
        balance_before := balance_before
        balance_after := w2.balance
        session_id := some session_id })

/-- `WalletService.refund`: credits `amount` to `balance` and records a
`refund`-type transaction over `balance`.  Never fails. -/
def refund (w : Wallet) (amount : Money) (session_id : Option Nat) :
    Wallet × WalletTransaction :=
  let balance_before := w.balance
  let w2 : Wallet := { w with balance := w.balance + amount }
  (w2,
    { transaction_type := .refund
      amount := amount
      balance_before := balance_before
      balance_after := w2.balance
      session_id := session_id })

/-- Result of `WalletService.topup`: the updated wallet, the recorded
transactions in insertion order (topup first, then the bonus transaction when
`bonus_amount > 0`), and the figures the service returns to the caller. -/
structure TopupOutcome where
  wallet : Wallet
  topup_transaction : WalletTransaction
  bonus_transaction : Option WalletTransaction
  bonus_amount : Money
  bonus_percentage : Money
  total_amount : Money
  balance_before : Money
  balance_after : Money
deriving Repr, DecidableEq

/-- `WalletService.topup`.  Computes the tiered bonus, credits
`amount_npr + bonus` to `balance`, then inserts the topup transaction and —
when the bonus is positive — the bonus transaction; both are recorded with
the `balance_before`/`balance_after` values captured around the single
balance update (the code computes `bonus_balance_before` but does not use
it). -/
def topup (w : Wallet) (amount_npr : Money) : TopupOutcome :=
  let bonus : Money × Money :=
    if amount_npr ≥ TOPUP_BONUS_TIER_2_AMOUNT then
      (TOPUP_BONUS_TIER_2_PERCENTAGE,
        amount_npr * TOPUP_BONUS_TIER_2_PERCENTAGE / 100)
    else if amount_npr ≥ TOPUP_BONUS_TIER_1_AMOUNT then
      (TOPUP_BONUS_TIER_1_PERCENTAGE,
        amount_npr * TOPUP_BONUS_TIER_1_PERCENTAGE / 100)
    else
      (0, 0)
  let bonus_percentage := bonus.1
  let bonus_amount := bonus.2
  let total_amount := amount_npr + bonus_amount
  let balance_before := w.balance
  let w2 : Wallet := { w with balance := w.balance + total_amount }
  let balance_after := w2.balance
  let topup_transaction : WalletTransaction :=
    { transaction_type := .topup
      amount := amount_npr
      balance_before := balance_before
      balance_after := balance_after
      session_id := none }
  let bonus_transaction : Option WalletTransaction :=
    if bonus_amount > 0 then
      some
        { transaction_type := .bonus
          amount := bonus_amount
          balance_before := balance_before
          balance_after := balance_after
          session_id := none }
    else
      none
  { wallet := w2
    topup_transaction := topup_transaction
    bonus_transaction := bonus_transaction
    bonus_amount := bonus_amount
    bonus_percentage := bonus_percentage
    total_amount := total_amount
    balance_before := balance_before
    balance_after := balance_after }

/-! ### The per-user store: wallet plus append-only ledger -/

/-- One user's wallet together with the append-only transaction ledger. -/
structure WalletDB where
  wallet : Wallet
  transactions : List WalletTransaction
deriving Repr, DecidableEq

/-- `reserve_balance` at the store level: on success the transaction is
appended to the ledger. -/
def reserve_balance_db (db : WalletDB) (amount : Money)
    (session_id : Option Nat) : Except WalletError WalletDB :=
  match reserve_balance db.wallet amount session_id with
  | .error e => .error e
  | .ok (w2, t) => .ok { wallet := w2, transactions := db.transactions ++ [t] }

/-- `topup` at the store level: the topup transaction is appended first and
the bonus transaction (when present) second, matching the `db.add` order of
the code. -/
def topup_db (db : WalletDB) (amount_npr : Money) : WalletDB × TopupOutcome :=
  let o := topup db.wallet amount_npr
  ({ wallet := o.wallet
     transactions :=
       db.transactions ++ [o.topup_transaction] ++ o.bonus_transaction.toList },
   o)

/-! ### Sequences of wallet operations (for the global invariant) -/

/-- One call into `WalletService`, with its arguments. -/
inductive WalletOp where
  | getOrCreateOp
  | reserveOp (amount : Money)
  | finalizeOp (reserved_amount actual_amount : Money)
  | refundOp (amount : Money)
  | topupOp (amount : Money)
deriving Repr, DecidableEq

/-- Runs one operation on the wallet; `none` when the operation raised (and
therefore, by rollback, changed nothing). -/
def applyOp (w : Wallet) : WalletOp → Option Wallet
  | .getOrCreateOp => some (get_or_create_wallet (some w))
  | .reserveOp a =>
      match reserve_balance w a none with
      | .error _ => none
      | .ok (w2, _) => some w2
  | .finalizeOp r a =>
      match finalize_reservation w r a 0 with
      | .error _ => none
      | .ok (w2, _) => some w2
  | .refundOp a => some (refund w a none).1
  | .topupOp a => some (topup w a).wallet

/-- The durable state after one operation: unchanged when it raised. -/
def stepOp (w : Wallet) (op : WalletOp) : Wallet :=
  (applyOp w op).getD w

/-- The wallet after a sequence of operations. -/
def runOps (w : Wallet) (ops : List WalletOp) : Wallet :=
  ops.foldl stepOp w

/-- A freshly created wallet (`get_or_create_wallet` on a missing row). -/
def freshWallet : Wallet := get_or_create_wallet none

/-- The spec's wallet invariant:
`balance ≥ 0 ∧ reserved_balance ≥ 0 ∧ balance ≥ reserved_balance`. -/
def WalletInv (w : Wallet) : Prop :=
  0 ≤ w.balance ∧ 0 ≤ w.reserved_balance ∧ w.reserved_balance ≤ w.balance

instance (w : Wallet) : Decidable (WalletInv w) := by
  unfold WalletInv; infer_instance

/-- Well-formed call: nonnegative amounts, and a settlement never charges
more than the earmark it releases. -/
def goodOp : WalletOp → Prop
  | .getOrCreateOp => True
  | .reserveOp a => 0 ≤ a
  | .finalizeOp r a => 0 ≤ a ∧ a ≤ r
  | .refundOp a => 0 ≤ a
  | .topupOp a => 0 ≤ a

instance (op : WalletOp) : Decidable (goodOp op) := by
  unfold goodOp; cases op <;> infer_instance

/-! ## services/voice_coaching_service.py -/

/-- Python `str.lower()`, as a character-wise map (the services only lower
ASCII mode/track identifiers). -/
def strLower (s : String) : String := String.mk (s.data.map Char.toLower)

/-- `VoiceCoachingService.calculate_cost`: per-minute rate times duration for
the `standard` and `realtime` modes, `ValueError` (`InvalidParameter`)
otherwise. -/
def calculate_cost (mode : String) (duration_minutes : Nat) :
    Except WalletError Money :=
  if strLower mode = ("standard") then
    .ok (VOICE_COACHING_STANDARD_COST_PER_MINUTE * (duration_minutes : Money))
  else if strLower mode = ("realtime") then
    .ok (VOICE_COACHING_REALTIME_COST_PER_MINUTE * (duration_minutes : Money))
  else
    .error (.invalidParameter ("Invalid mode"))

/-- `VoiceCoachingSession` row (metadata `track`/`language` kept; the
`started_at`-style timestamps are modelled as stamped/not-stamped flags). -/
structure VoiceSession where
  session_id : Nat
  mode : String
  duration_minutes : Nat
  cost : Money
  status : SessionStatus
  reserved_at : Bool
  started_at : Bool
  completed_at : Bool
  track : String
  language : String
deriving Repr, DecidableEq

/-- One user's store as seen by the voice-coaching service. -/
structure VoiceDB where
  wallet : Wallet
  transactions : List WalletTransaction
  sessions : List VoiceSession
deriving Repr, DecidableEq

/-- The figures `VoiceCoachingService.start_session` returns. -/
structure StartVoiceView where
  session_id : Nat
  mode : String
  reserved_amount : Money
  status : SessionStatus
deriving Repr, DecidableEq

/-- `VoiceCoachingService.start_session`.  Validates the duration bounds and
the mode before touching storage, computes the estimated cost, inserts the
session row in `reserved` state, then reserves the balance; a reservation
failure rolls the whole operation back (original store returned with the
error). -/
def VoiceCoachingService.start_session (db : VoiceDB) (mode track language : String)
    (estimated_duration_minutes : Nat) (session_id : Nat) :
    VoiceDB × Except WalletError StartVoiceView :=
  if estimated_duration_minutes < MIN_VOICE_SESSION_DURATION then
    (db, .error (.invalidParameter ("Duration must be at least the minimum")))
  else if estimated_duration_minutes > MAX_VOICE_SESSION_DURATION then
    (db, .error (.invalidParameter ("Duration must not exceed the maximum")))
  else if ¬ (strLower mode = ("standard") ∨ strLower mode = ("realtime")) then
    (db, .error (.invalidParameter ("Mode must be standard or realtime")))
  else
    match calculate_cost mode estimated_duration_minutes with
    | .error e => (db, .error e)
    | .ok estimated_cost =>
      let session : VoiceSession :=
        { session_id := session_id
          mode := strLower mode
          duration_minutes := estimated_duration_minutes
          cost := estimated_cost
          status := .reserved
          reserved_at := true
          started_at := false
          completed_at := false
          track := track
          language := language }
      match reserve_balance db.wallet estimated_cost (some session_id) with
      | .error e => (db, .error e)
      | .ok (w2, t) =>
        ({ wallet := w2
           transactions := db.transactions ++ [t]
           sessions := db.sessions ++ [session] },
         .ok
           { session_id := session_id
             mode := strLower mode
             reserved_amount := estimated_cost
             status := session.status })

/-! ## services/video_session_service.py -/

/-- One entry of a video's `timeline_events` list (`type` is a Python dict
key, rendered here as `etype`; the `options` list is presentation-only and
not modelled). -/
structure TimelineEvent where
  event_id : String
  timestamp : Nat
  etype : String
  question_text : String
  question_type : String
  expected_keigo_level : String
deriving Repr, DecidableEq

/-- One entry of `VideoSessionService.VIDEO_METADATA`. -/
structure VideoMetadata where
  video_id : String
  title : String
  track : String
  language : String
  duration_minutes : Nat
  video_url : String
  timeline_events : List TimelineEvent
deriving Repr, DecidableEq

/-- `VIDEO_METADATA["caregiving_n5_lesson_01_ja"]`. -/
def caregivingN5Lesson01 : VideoMetadata :=
  { video_id := ("caregiving_n5_lesson_01_ja")
    title := ("Caregiving Basics - N5 Lesson 1")
    track := ("caregiving")
    language := ("ja")
    duration_minutes := 20
    video_url := ("/videos/caregiving/n5_lesson_01_ja.mp4")
    timeline_events :=
      [ { event_id := ("q1")
          timestamp := 120
          etype := ("question")
          question_text :=
            ("How do you say \x27The patient needs water\x27 in Japanese?")
          question_type := ("keigo_check")
          expected_keigo_level := ("teineigo") },
        { event_id := ("practice_1")
          timestamp := 300
          etype := ("practice_prompt")
          question_text :=
            ("Practice saying: \x27お水をください\x27 (Please give me water)")
          question_type := ("pronunciation")
          expected_keigo_level := ("") },
        { event_id := ("q2")
          timestamp := 600
          etype := ("question")
          question_text := ("What is the polite form of \x27食べる\x27 (to eat)?")
          question_type := ("grammar")
          expected_keigo_level := ("teineigo") } ] }

/-- `VIDEO_METADATA["academic_n4_lesson_02_ja"]`. -/
def academicN4Lesson02 : VideoMetadata :=
  { video_id := ("academic_n4_lesson_02_ja")
    title := ("Academic Japanese - N4 Lesson 2")
    track := ("academic")
    language := ("ja")
    duration_minutes := 25
    video_url := ("/videos/academic/n4_lesson_02_ja.mp4")
    timeline_events :=
      [ { event_id := ("q1")
          timestamp := 180
          etype := ("question")
          question_text :=
            ("How would you politely ask a professor: \x27May I ask a question?\x27")
          question_type := ("keigo_check")
          expected_keigo_level := ("sonkeigo") } ] }

/-- `VIDEO_METADATA["food_tech_n5_lesson_01_ja"]`. -/
def foodTechN5Lesson01 : VideoMetadata :=
  { video_id := ("food_tech_n5_lesson_01_ja")
    title := ("Food Technology Basics - N5 Lesson 1")
    track := ("food_tech")
    language := ("ja")
    duration_minutes := 18
    video_url := ("/videos/food_tech/n5_lesson_01_ja.mp4")
    timeline_events :=
      [ { event_id := ("q1")
          timestamp := 150
          etype := ("question")
          question_text := ("How do you say \x27The kitchen is clean\x27 in Japanese?")
          question_type := ("vocabulary")
          expected_keigo_level := ("teineigo") } ] }

/-- `VideoSessionService.get_video_metadata`: the static `VIDEO_METADATA`
table. -/
def get_video_metadata (video_id : String) : Option VideoMetadata :=
  if video_id = ("caregiving_n5_lesson_01_ja") then some caregivingN5Lesson01
  else if video_id = ("academic_n4_lesson_02_ja") then some academicN4Lesson02
  else if video_id = ("food_tech_n5_lesson_01_ja") then some foodTechN5Lesson01
  else none

/-- One recorded answer inside the session metadata; the assessment result is
the opaque value returned by the external scoring collaborator. -/
structure AnswerRecord where
  answer : String
  answer_mode : String
  assessment : String
deriving Repr, DecidableEq

/-- `VideoSession` row together with its `video_session_metadata` blob
(`answers` dict as an association list, `progress` dict as two fields). -/
structure VideoSession where
  session_id : Nat
  duration_minutes : Nat
  cost : Money
  status : SessionStatus
  reserved_at : Bool
  started_at : Bool
  completed_at : Bool
  video_id : String
  language : String
  track : String
  title : String
  timeline_events : List TimelineEvent
  answers : List (String × AnswerRecord)
  progress_current_timestamp : Nat
  progress_completion_percentage : Money
deriving Repr, DecidableEq

/-- One user's store as seen by the video-session service. -/
structure VideoDB where
  wallet : Wallet
  transactions : List WalletTransaction
  sessions : List VideoSession
deriving Repr, DecidableEq

/-- Looks a session up by id (the `user_id` filter is implicit in the
per-user store). -/
def findSession (db : VideoDB) (session_id : Nat) : Option VideoSession :=
  db.sessions.find? (fun s => s.session_id = session_id)

/-- Replaces the session with the given id. -/
def putSession (db : VideoDB) (s : VideoSession) : List VideoSession :=
  db.sessions.map (fun t => if t.session_id = s.session_id then s else t)

/-- The figures `VideoSessionService.start_session` returns. -/
structure StartVideoView where
  session_id : Nat
  video_id : String
  duration_minutes : Nat
  reserved_amount : Money
  status : SessionStatus
deriving Repr, DecidableEq

/-- `VideoSessionService.start_session`.  Looks the video up, prices the full
video duration, inserts the session row in `reserved` state with progress
initialised to `completion_percentage = 0.0`, then reserves the balance; a
reservation failure rolls everything back. -/
def VideoSessionService.start_session (db : VideoDB) (video_id language : String)
    (session_id : Nat) : VideoDB × Except WalletError StartVideoView :=
  match get_video_metadata video_id with
  | none => (db, .error (.invalidParameter ("Video not found")))
  | some metadata =>
    let duration_minutes := metadata.duration_minutes
    let estimated_cost :=
      VIDEO_SESSION_COST_PER_MINUTE * (duration_minutes : Money)
    let session : VideoSession :=
      { session_id := session_id
        duration_minutes := duration_minutes
        cost := estimated_cost
        status := .reserved
        reserved_at := true
        started_at := false
        completed_at := false
        video_id := video_id
        language := language
        track := metadata.track
        title := metadata.title
        timeline_events := metadata.timeline_events
        answers := []
        progress_current_timestamp := 0
        progress_completion_percentage := 0 }
    match reserve_balance db.wallet estimated_cost (some session_id) with
    | .error e => (db, .error e)
    | .ok (w2, t) =>
      ({ wallet := w2
         transactions := db.transactions ++ [t]
         sessions := db.sessions ++ [session] },
       .ok
         { session_id := session_id
           video_id := video_id
           duration_minutes := duration_minutes
           reserved_amount := estimated_cost
           status := session.status })

/-- The arguments `answer_question` forwards to the external assessment
collaborator (`AssessmentService.evaluate_answer`). -/
structure AssessmentInput where
  question_id : String
  student_answer : String
  track : String
  expected_keigo_level : String
  question_text : String
  question_type : String
deriving Repr, DecidableEq

/-- `VideoSessionService.answer_question`, parameterised by the external
scoring function.  Fails when the session is missing or its status is outside
{reserved, active}; transitions `reserved → active` (stamping `started_at`)
and records the answer with its assessment in the session metadata. -/
def answer_question (db : VideoDB) (session_id : Nat)
    (question_id answer answer_mode : String)
    (evaluate : AssessmentInput → String) :
    VideoDB × Except WalletError AnswerRecord :=
  match findSession db session_id with
  | none => (db, .error .sessionNotFound)
  | some session =>
    if ¬ (session.status = .reserved ∨ session.status = .active) then
      (db, .error (.invalidState session.status))
    else
      let session1 : VideoSession :=
        if session.status = .reserved then
          { session with status := .active, started_at := true }
        else
          session
      match session1.timeline_events.find? (fun e => e.event_id = question_id) with
      | none => (db, .error (.invalidParameter ("Question not found in timeline")))
      | some question =>
        if ¬ (question.etype = ("question")) then
          (db, .error (.invalidParameter ("Event is not a question")))
        else
          let assessment_result :=
            evaluate
              { question_id := question_id
                student_answer := answer
                track := session1.track
                expected_keigo_level := question.expected_keigo_level
                question_text := question.question_text
                question_type := question.question_type }
          let record : AnswerRecord :=
            { answer := answer
              answer_mode := answer_mode
              assessment := assessment_result }
          let session2 : VideoSession :=
            { session1 with answers := session1.answers ++ [(question_id, record)] }
          ({ db with sessions := putSession db session2 }, .ok record)

/-- `VideoSessionService.update_progress`.  Looks the session up (failing with
`SessionNotFound` only), overwrites the progress fields, and transitions
`reserved → active` stamping `started_at`; the status is otherwise not
inspected. -/
def update_progress (db : VideoDB) (session_id : Nat)
    (current_timestamp : Nat) (completion_percentage : Money) :
    VideoDB × Except WalletError (Nat × Money) :=
  match findSession db session_id with
  | none => (db, .error .sessionNotFound)
  | some session =>
    let session1 : VideoSession :=
      { session with
          progress_current_timestamp := current_timestamp
          progress_completion_percentage := completion_percentage }
    let session2 : VideoSession :=
      if session1.status = .reserved then
        { session1 with status := .active, started_at := true }
      else
        session1
    ({ db with sessions := putSession db session2 },
     .ok (current_timestamp, completion_percentage))

/-- The figures `VideoSessionService.complete_session` returns. -/
structure CompleteVideoView where
  session_id : Nat
  status : SessionStatus
  reserved_amount : Money
  actual_cost : Money
  refund_amount : Money
  completion_percentage : Money
deriving Repr, DecidableEq

/-- `VideoSessionService.complete_session`.  Fails when the session is missing
or already completed; prices the watched fraction
(`duration × completion% / 100` minutes), finalizes the reservation (charging
the actual cost), refunds `reserved − actual` when the actual cost is
smaller, and marks the session completed.  A wallet failure rolls everything
back. -/
def complete_session (db : VideoDB) (session_id : Nat) :
    VideoDB × Except WalletError CompleteVideoView :=
  match findSession db session_id with
  | none => (db, .error .sessionNotFound)
  | some session =>
    if session.status = .completed then
      (db, .error (.invalidState session.status))
    else
      let completion_percentage := session.progress_completion_percentage
      let actual_duration_minutes :=
        (session.duration_minutes : Money) * completion_percentage / 100
      let actual_cost := VIDEO_SESSION_COST_PER_MINUTE * actual_duration_minutes
      let reserved_amount := session.cost
      match finalize_reservation db.wallet reserved_amount actual_cost session_id with
      | .error e => (db, .error e)
      | .ok (w1, charge_transaction) =>
        let afterRefund : Wallet × List WalletTransaction × Money :=
          if actual_cost < reserved_amount then
            let refund_amount := reserved_amount - actual_cost
            let r := refund w1 refund_amount (some session_id)
            (r.1, [charge_transaction, r.2], refund_amount)
          else
            (w1, [charge_transaction], 0)
        let session2 : VideoSession :=
          { session with status := .completed, completed_at := true }
        ({ wallet := afterRefund.1
           transactions := db.transactions ++ afterRefund.2.1
           sessions := putSession db session2 },
         .ok
           { session_id := session_id
             status := session2.status
             reserved_amount := reserved_amount
             actual_cost := actual_cost
             refund_amount := afterRefund.2.2
             completion_percentage := completion_percentage })

/-! ## Shared helper lemmas -/

theorem activeNeCompleted : SessionStatus.active ≠ SessionStatus.completed := by
  decide

/-- The session row created by the scenario's `start_session` call. -/
def scenarioSession : VideoSession :=
  { session_id := 1
    duration_minutes := 20
    cost := 300
    status := .reserved
    reserved_at := true
    started_at := false
    completed_at := false
    video_id := ("caregiving_n5_lesson_01_ja")
    language := ("ja")
    track := ("caregiving")
    title := ("Caregiving Basics - N5 Lesson 1")
    timeline_events := caregivingN5Lesson01.timeline_events
    answers := []
    progress_current_timestamp := 0
    progress_completion_percentage := 0 }

/-- Starting the scenario's video session from a 500-balance wallet reserves
300 and leaves the balance untouched. -/
theorem scenario_start_eq :
    VideoSessionService.start_session
        { wallet := { balance := 500, reserved_balance := 0 },
          transactions := [], sessions := [] }
        ("caregiving_n5_lesson_01_ja") ("ja") 1 =
      ({ wallet := { balance := 500, reserved_balance := 300 }
         transactions :=
           [{ transaction_type := .reserve, amount := 300, balance_before := 0,
              balance_after := 300, session_id := some 1 }]
         sessions := [scenarioSession] },
       .ok
         { session_id := 1, video_id := ("caregiving_n5_lesson_01_ja")
           duration_minutes := 20, reserved_amount := 300, status := .reserved }) := by
  norm_num [VideoSessionService.start_session, get_video_metadata, reserve_balance,
    VIDEO_SESSION_COST_PER_MINUTE, scenarioSession, caregivingN5Lesson01]

/-- After the 50%-progress update the stored session is active with
`completion_percentage = 50`. -/
theorem scenario_progress_eq :
    update_progress
        (VideoSessionService.start_session
          { wallet := { balance := 500, reserved_balance := 0 },
            transactions := [], sessions := [] }
          ("caregiving_n5_lesson_01_ja") ("ja") 1).1
        1 600 50 =
      ({ wallet := { balance := 500, reserved_balance := 300 }
         transactions :=
           [{ transaction_type := .reserve, amount := 300, balance_before := 0,
              balance_after := 300, session_id := some 1 }]
         sessions :=
           [{ scenarioSession with
                status := .active, started_at := true,
                progress_current_timestamp := 600,
                progress_completion_percentage := 50 }] },
       .ok (600, 50)) := by
  rw [scenario_start_eq]
  norm_num [update_progress, findSession, putSession, List.find?, scenarioSession]

/-- Completing the scenario at 50%: the settlement reports
`actual_cost = 150` and `refund_amount = 150`, appends the charge (500 → 350)
and refund (350 → 500) transactions, and leaves the wallet at balance 500
with the earmark released. -/
theorem scenario_complete_eq :
    complete_session
        (update_progress
          (VideoSessionService.start_session
            { wallet := { balance := 500, reserved_balance := 0 },
              transactions := [], sessions := [] }
            ("caregiving_n5_lesson_01_ja") ("ja") 1).1
          1 600 50).1
        1 =
      ({ wallet := { balance := 500, reserved_balance := 0 }
         transactions :=
           [{ transaction_type := .reserve, amount := 300, balance_before := 0,
              balance_after := 300, session_id := some 1 },
            { transaction_type := .charge, amount := 150, balance_before := 500,
              balance_after := 350, session_id := some 1 },
            { transaction_type := .refund, amount := 150, balance_before := 350,
              balance_after := 500, session_id := some 1 }]
         sessions :=
           [{ scenarioSession with
                status := .completed, started_at := true, completed_at := true,
                progress_current_timestamp := 600,
                progress_completion_percentage := 50 }] },
       .ok
         { session_id := 1, status := .completed, reserved_amount := 300,
           actual_cost := 150, refund_amount := 150,
           completion_percentage := 50 }) := by
  rw [scenario_progress_eq]
  norm_num [complete_session, findSession, putSession, List.find?,
    finalize_reservation, refund, VIDEO_SESSION_COST_PER_MINUTE,
    scenarioSession, activeNeCompleted]

/-- Completing the scenario's session immediately (no progress update): the
initialised `completion_percentage = 0` prices the session at 0, so the
charge is 0 (window 500 → 500) and the whole reservation is refunded
(window 500 → 800). -/
theorem scenario_complete_no_progress_eq :
    complete_session
        (VideoSessionService.start_session
          { wallet := { balance := 500, reserved_balance := 0 },
            transactions := [], sessions := [] }
          ("caregiving_n5_lesson_01_ja") ("ja") 1).1
        1 =
      ({ wallet := { balance := 800, reserved_balance := 0 }
         transactions :=
           [{ transaction_type := .reserve, amount := 300, balance_before := 0,
              balance_after := 300, session_id := some 1 },
            { transaction_type := .charge, amount := 0, balance_before := 500,
              balance_after := 500, session_id := some 1 },
            { transaction_type := .refund, amount := 300, balance_before := 500,
              balance_after := 800, session_id := some 1 }]
         sessions :=
           [{ scenarioSession with
                status := .completed, completed_at := true }] },
       .ok
         { session_id := 1, status := .completed, reserved_amount := 300,
           actual_cost := 0, refund_amount := 300,
           completion_percentage := 0 }) := by
  rw [scenario_start_eq]
  norm_num [complete_session, findSession, putSession, List.find?,
    finalize_reservation, refund, VIDEO_SESSION_COST_PER_MINUTE,
    scenarioSession]
  decide

/-! ### Wallet-invariant preservation (for the amended claim C2) -/

theorem stepOp_getOrCreate (w : Wallet) : stepOp w .getOrCreateOp = w := rfl

theorem applyOp_reserveOp (w : Wallet) (a : Money) :
    applyOp w (.reserveOp a) =
      if w.balance - w.reserved_balance < a then none
      else some { w with reserved_balance := w.reserved_balance + a } := by
  simp only [applyOp, reserve_balance]
  split_ifs <;> rfl

theorem applyOp_finalizeOp (w : Wallet) (r a : Money) :
    applyOp w (.finalizeOp r a) =
      if w.balance < a then none
      else if r ≤ w.reserved_balance then
        some { balance := w.balance - a, reserved_balance := w.reserved_balance - r }
      else
        some { balance := w.balance - a, reserved_balance := 0 } := by
  simp only [applyOp, finalize_reservation, ge_iff_le]
  split_ifs <;> rfl

theorem applyOp_refundOp (w : Wallet) (a : Money) :
    applyOp w (.refundOp a) = some { w with balance := w.balance + a } := rfl

theorem topup_wallet_eq (w : Wallet) (a : Money) :
    (topup w a).wallet =
      { w with balance := w.balance + (a + (topup w a).bonus_amount) } := by
  simp only [topup]

theorem topup_bonus_nonneg (w : Wallet) (a : Money) (ha : 0 ≤ a) :
    0 ≤ (topup w a).bonus_amount := by
  simp only [topup]
  split_ifs <;>
    first
      | exact div_nonneg
          (mul_nonneg ha
            (by norm_num [TOPUP_BONUS_TIER_1_PERCENTAGE, TOPUP_BONUS_TIER_2_PERCENTAGE]))
          (by norm_num)
      | exact le_refl 0

theorem walletInv_stepOp (w : Wallet) (op : WalletOp) (hw : WalletInv w)
    (hop : goodOp op) : WalletInv (stepOp w op) := by
  obtain ⟨hb, hr, hrb⟩ := hw
  cases op with
  | getOrCreateOp =>
      exact stepOp_getOrCreate w ▸ ⟨hb, hr, hrb⟩
  | reserveOp a =>
      replace hop : 0 ≤ a := hop
      rw [stepOp, applyOp_reserveOp]
      split_ifs with hc
      · exact ⟨hb, hr, hrb⟩
      · rw [not_lt] at hc
        exact ⟨hb, by simp; linarith, by simp; linarith⟩
  | finalizeOp r a =>
      obtain ⟨ha, har⟩ : 0 ≤ a ∧ a ≤ r := hop
      rw [stepOp, applyOp_finalizeOp]
      split_ifs with h1 h2
      · exact ⟨hb, hr, hrb⟩
      · rw [not_lt] at h1
        exact ⟨by simp; linarith, by simp; linarith, by simp; linarith⟩
      · rw [not_lt] at h1
        exact ⟨by simp; linarith, by simp, by simp; linarith⟩
  | refundOp a =>
      replace hop : 0 ≤ a := hop
      rw [stepOp, applyOp_refundOp]
      exact ⟨by simp; linarith, hr, by simp; linarith⟩
  | topupOp a =>
      replace hop : 0 ≤ a := hop
      have hbonus := topup_bonus_nonneg w a hop
      show WalletInv (topup w a).wallet
      rw [topup_wallet_eq]
      exact ⟨by simp; linarith, hr, by simp; linarith⟩

theorem walletInv_runOps (ops : List WalletOp) (w : Wallet) (hw : WalletInv w)
    (hg : ∀ op ∈ ops, goodOp op) : WalletInv (runOps w ops) := by
  induction ops generalizing w with
  | nil => exact hw
  | cons op t ih =>
      exact ih (stepOp w op)
        (walletInv_stepOp w op hw (hg op (List.mem_cons_self op t)))
        (fun o ho => hg o (List.mem_cons_of_mem op ho))

/-! ## Claim theorems -/

/-- Claim C1: the code's behaviour on the specified scenario refutes the
claim.  A wallet with balance 500.00 starts the 20-minute video session
priced at 15.00/min (reserving 300.00) and completes at 50% completion.  The
settlement reports `actual_cost = 150.00` and `refund_amount = 150.00`, the
earmark is released, and a refund-type transaction of amount 150 exists for
the session — but the final balance is 500.00, not the
`balance_before_reserve − actual_cost = 350.00` the claim requires: the
reservation never debited `balance`, and `complete_session` charges only the
actual cost yet credits the refund difference on top of it. -/
theorem C1_code_behavior :
    (complete_session
        (update_progress
          (VideoSessionService.start_session
            { wallet := { balance := 500, reserved_balance := 0 },
              transactions := [], sessions := [] }
            ("caregiving_n5_lesson_01_ja") ("ja") 1).1
          1 600 50).1
        1).2 =
      .ok
        { session_id := 1
          status := .completed
          reserved_amount := 300
          actual_cost := 150
          refund_amount := 150
          completion_percentage := 50 } ∧
    (complete_session
        (update_progress
          (VideoSessionService.start_session
            { wallet := { balance := 500, reserved_balance := 0 },
              transactions := [], sessions := [] }
            ("caregiving_n5_lesson_01_ja") ("ja") 1).1
          1 600 50).1
        1).1.wallet = { balance := 500, reserved_balance := 0 } ∧
    ({ transaction_type := .refund
       amount := 150
       balance_before := 350
       balance_after := 500
       session_id := some 1 } : WalletTransaction) ∈
      (complete_session
        (update_progress
          (VideoSessionService.start_session
            { wallet := { balance := 500, reserved_balance := 0 },
              transactions := [], sessions := [] }
            ("caregiving_n5_lesson_01_ja") ("ja") 1).1
          1 600 50).1
        1).1.transactions ∧
    ¬ (complete_session
        (update_progress
          (VideoSessionService.start_session
            { wallet := { balance := 500, reserved_balance := 0 },
              transactions := [], sessions := [] }
            ("caregiving_n5_lesson_01_ja") ("ja") 1).1
          1 600 50).1
        1).1.wallet.balance = 350 := by
  rw [scenario_complete_eq]
  refine ⟨rfl, rfl, ?_, ?_⟩
  · simp
  · norm_num

/-- Claim C2, counterexample: from a fresh wallet, the sequence
`topup 100; reserve 50; reserve 50; finalize(reserved = 50, actual = 60)`
has every operation complete without error, yet it ends at
`balance = 40 < reserved_balance = 50`, violating the invariant
`balance ≥ reserved_balance`. -/
theorem C2_counterexample :
    applyOp freshWallet (.topupOp 100) = some { balance := 100, reserved_balance := 0 } ∧
    applyOp { balance := 100, reserved_balance := 0 } (.reserveOp 50) =
      some { balance := 100, reserved_balance := 50 } ∧
    applyOp { balance := 100, reserved_balance := 50 } (.reserveOp 50) =
      some { balance := 100, reserved_balance := 100 } ∧
    applyOp { balance := 100, reserved_balance := 100 } (.finalizeOp 50 60) =
      some { balance := 40, reserved_balance := 50 } ∧
    runOps freshWallet
        [.topupOp 100, .reserveOp 50, .reserveOp 50, .finalizeOp 50 60] =
      { balance := 40, reserved_balance := 50 } ∧
    ¬ WalletInv { balance := 40, reserved_balance := 50 } := by
  refine ⟨?_, ?_, ?_, ?_, ?_, ?_⟩ <;>
    norm_num [applyOp, stepOp, runOps, freshWallet, get_or_create_wallet,
      reserve_balance, finalize_reservation, refund, topup, WalletInv,
      TOPUP_BONUS_TIER_1_AMOUNT, TOPUP_BONUS_TIER_2_AMOUNT,
      TOPUP_BONUS_TIER_1_PERCENTAGE, TOPUP_BONUS_TIER_2_PERCENTAGE]

/-- Claim C3, counterexample: on a wallet with balance 0, `topup 1000`
(bonus 100) records the topup transaction with window 0 → 1100, not the
window 0 → 1000 the claim requires; the bonus transaction carries the same
0 → 1100 window rather than 1000 → 1100. -/
theorem C3_counterexample :
    (topup { balance := 0, reserved_balance := 0 } 1000).topup_transaction.balance_before
      = 0 ∧
    (topup { balance := 0, reserved_balance := 0 } 1000).topup_transaction.balance_after
      = 1100 ∧
    ¬ (topup { balance := 0, reserved_balance := 0 } 1000).topup_transaction.balance_after
      = 1000 ∧
    (topup { balance := 0, reserved_balance := 0 } 1000).bonus_transaction =
      some
        { transaction_type := .bonus
          amount := 100
          balance_before := 0
          balance_after := 1100
          session_id := none } := by
  refine ⟨?_, ?_, ?_, ?_⟩ <;>
    norm_num [topup, TOPUP_BONUS_TIER_1_AMOUNT, TOPUP_BONUS_TIER_2_AMOUNT,
      TOPUP_BONUS_TIER_1_PERCENTAGE, TOPUP_BONUS_TIER_2_PERCENTAGE]

/-- The topup transaction always records the window from the pre-topup
balance to the post-credit balance (base amount plus bonus). -/
theorem topup_topup_tx (w : Wallet) (a : Money) :
    (topup w a).topup_transaction =
      { transaction_type := .topup
        amount := a
        balance_before := w.balance
        balance_after := w.balance + (a + (topup w a).bonus_amount)
        session_id := none } := rfl

/-- When the bonus is positive, the bonus transaction is present and records
the same window as the topup transaction. -/
theorem topup_bonus_tx (w : Wallet) (a : Money)
    (h : 0 < (topup w a).bonus_amount) :
    (topup w a).bonus_transaction =
      some
        { transaction_type := .bonus
          amount := (topup w a).bonus_amount
          balance_before := w.balance
          balance_after := w.balance + (a + (topup w a).bonus_amount)
          session_id := none } := by
  simp only [topup] at h ⊢
  rw [if_pos h]

/-- In a list whose members all miss the id, appending one session with the
id makes `find?` return it. -/
theorem find?_append_fresh (l : List VideoSession) (x : VideoSession) (sid : Nat)
    (hl : ∀ y ∈ l, y.session_id ≠ sid) (hx : x.session_id = sid) :
    (l ++ [x]).find? (fun t => t.session_id = sid) = some x := by
  rw [List.find?_append,
    List.find?_eq_none.mpr (by intro y hy; simpa using hl y hy),
    Option.none_or, List.find?_cons_of_pos _ (by simpa using hx)]

/-- Claim C10: every video session `start_session` creates has its progress
`completion_percentage` initialised to 0.0 in the session metadata, so when
`complete_session` runs with no intervening `update_progress` call the
computed `actual_cost` is 0, the `refund_amount` equals the full reserved
amount, and the recorded charge has amount 0 over an unchanged balance —
the session completes with nothing charged.  The store may hold other
sessions (with other ids) and any nonnegative balance sufficient for the
reservation to have succeeded. -/
theorem C10_complete_without_progress (db : VideoDB) (vid language : String)
    (sid : Nat) (db1 : VideoDB) (v : StartVideoView)
    (hb : 0 ≤ db.wallet.balance)
    (hfresh : ∀ s ∈ db.sessions, s.session_id ≠ sid)
    (hstart : VideoSessionService.start_session db vid language sid = (db1, .ok v)) :
    ((findSession db1 sid).map (fun s => s.progress_completion_percentage) =
      some 0) ∧
    (complete_session db1 sid).2 =
      .ok
        { session_id := sid
          status := .completed
          reserved_amount := v.reserved_amount
          actual_cost := 0
          refund_amount := v.reserved_amount
          completion_percentage := 0 } ∧
    ({ transaction_type := .charge
       amount := 0
       balance_before := db.wallet.balance
       balance_after := db.wallet.balance
       session_id := some sid } : WalletTransaction) ∈
      (complete_session db1 sid).1.transactions := by
  simp only [VideoSessionService.start_session] at hstart
  cases hmd : get_video_metadata vid with
  | none =>
      rw [hmd] at hstart
      simp at hstart
  | some md =>
    rw [hmd] at hstart
    dsimp only at hstart
    cases hres : reserve_balance db.wallet
        (VIDEO_SESSION_COST_PER_MINUTE * (md.duration_minutes : Money))
        (some sid) with
    | error e =>
        rw [hres] at hstart
        simp at hstart
    | ok p =>
      obtain ⟨w2, t⟩ := p
      rw [hres] at hstart
      dsimp only at hstart
      injection hstart with hdb1 hv
      injection hv with hv
      subst hdb1
      subst hv
      simp only [reserve_balance] at hres
      split_ifs at hres with hc
      simp only [Except.ok.injEq, Prod.mk.injEq] at hres
      obtain ⟨hw2, ht⟩ := hres
      subst hw2
      subst ht
      have hcost : (0 : Money) ≤
          VIDEO_SESSION_COST_PER_MINUTE * (md.duration_minutes : Money) :=
        mul_nonneg
          (by norm_num [VIDEO_SESSION_COST_PER_MINUTE]) (Nat.cast_nonneg _)
      refine ⟨?_, ?_, ?_⟩
      · simp only [findSession]
        rw [find?_append_fresh db.sessions _ sid hfresh rfl]
        rfl
      · simp only [complete_session, findSession]
        rw [find?_append_fresh db.sessions _ sid hfresh rfl]
        dsimp only
        rw [if_neg (by decide : ¬ (SessionStatus.reserved = SessionStatus.completed))]
        simp only [mul_zero, zero_div]
        simp only [finalize_reservation, ge_iff_le]
        split_ifs with h1 h2 h3 h4 <;>
          first
            | exact absurd (by assumption : db.wallet.balance < 0) (not_lt.mpr hb)
            | (simp
               done)
            | (have h0 : VIDEO_SESSION_COST_PER_MINUTE *
                   (md.duration_minutes : Money) = 0 :=
                 le_antisymm (not_lt.mp (by assumption)) hcost
               simp only [h0])
      · simp only [complete_session, findSession]
        rw [find?_append_fresh db.sessions _ sid hfresh rfl]
        dsimp only
        rw [if_neg (by decide : ¬ (SessionStatus.reserved = SessionStatus.completed))]
        simp only [mul_zero, zero_div]
        simp only [finalize_reservation, ge_iff_le]
        split_ifs with h1 h2 h3 h4 <;>
          first
            | exact absurd (by assumption : db.wallet.balance < 0) (not_lt.mpr hb)
            | simp

/-- Witness for C10: the concrete scenario — wallet 500, the 20-minute
caregiving video reserved at 300 by `start_session`, completed with no
progress update — ends with `actual_cost = 0`, `refund_amount = 300`, and a
charge of 0 over the window 500 to 500. -/
theorem C10_complete_without_progress_witness :
    ((findSession
        { wallet := { balance := 500, reserved_balance := 300 }
          transactions :=
            [{ transaction_type := .reserve, amount := 300, balance_before := 0,
               balance_after := 300, session_id := some 1 }]
          sessions := [scenarioSession] } 1).map
      (fun s => s.progress_completion_percentage) = some 0) ∧
    (complete_session
        { wallet := { balance := 500, reserved_balance := 300 }
          transactions :=
            [{ transaction_type := .reserve, amount := 300, balance_before := 0,
               balance_after := 300, session_id := some 1 }]
          sessions := [scenarioSession] } 1).2 =
      .ok
        { session_id := 1
          status := .completed
          reserved_amount := 300
          actual_cost := 0
          refund_amount := 300
          completion_percentage := 0 } ∧
    ({ transaction_type := .charge
       amount := 0
       balance_before := 500
       balance_after := 500
       session_id := some 1 } : WalletTransaction) ∈
      (complete_session
        { wallet := { balance := 500, reserved_balance := 300 }
          transactions :=
            [{ transaction_type := .reserve, amount := 300, balance_before := 0,
               balance_after := 300, session_id := some 1 }]
          sessions := [scenarioSession] } 1).1.transactions :=
  C10_complete_without_progress
    { wallet := { balance := 500, reserved_balance := 0 },
      transactions := [], sessions := [] }
    ("caregiving_n5_lesson_01_ja") ("ja") 1 _ _
    (by norm_num) (by simp) scenario_start_eq

/-- Claim C2 (amended): with every operation well-formed — nonnegative
amounts, and every `finalize_reservation` charging at most the earmark it
releases (`actual_amount ≤ reserved_amount`) — every prefix of a sequence of
`WalletService` operations run from a freshly created wallet satisfies the
invariant `balance ≥ 0 ∧ reserved_balance ≥ 0 ∧ balance ≥ reserved_balance`.
Unrestricted, the invariant fails (see the counterexample): a
`finalize_reservation` with `actual_amount` exceeding the released
`reserved_amount` can leave `reserved_balance > balance` with no operation
erroring. -/
theorem C2_invariant_for_wellformed_ops (ops : List WalletOp)
    (hg : ∀ op ∈ ops, goodOp op) (n : Nat) :
    WalletInv (runOps freshWallet (ops.take n)) :=
  walletInv_runOps (ops.take n) freshWallet
    ⟨le_refl 0, le_refl 0, le_refl 0⟩
    (fun op ho => hg op (List.take_subset n ops ho))

/-- Witness for C2 (amended): a concrete well-formed history — topup 1000,
reserve 500, settle at actual 300, refund 200 — keeps the invariant. -/
theorem C2_invariant_for_wellformed_ops_witness :
    WalletInv (runOps freshWallet
      ([WalletOp.topupOp 1000, .reserveOp 500, .finalizeOp 500 300,
        .refundOp 200].take 4)) :=
  C2_invariant_for_wellformed_ops
    [WalletOp.topupOp 1000, .reserveOp 500, .finalizeOp 500 300, .refundOp 200]
    (by intro op hop; fin_cases hop <;> norm_num [goodOp])
    4

/-- Claim C3 (amended): when the bonus is positive, `topup` records the
topup transaction first and the bonus transaction second, but both carry the
same before/after window — the pre-topup balance to the balance after the
single credit of `amount + bonus` — rather than each transaction's window
reflecting its own position in the sequence. -/
theorem C3_topup_transaction_windows (db : WalletDB) (amount : Money)
    (bt : WalletTransaction)
    (h : 0 < (topup db.wallet amount).bonus_amount)
    (hbt : (topup db.wallet amount).bonus_transaction = some bt) :
    (topup_db db amount).1.transactions =
      db.transactions ++ [(topup db.wallet amount).topup_transaction, bt] ∧
    (topup db.wallet amount).topup_transaction.balance_before = db.wallet.balance ∧
    (topup db.wallet amount).topup_transaction.balance_after =
      db.wallet.balance + amount + (topup db.wallet amount).bonus_amount ∧
    bt.balance_before = db.wallet.balance ∧
    bt.balance_after =
      db.wallet.balance + amount + (topup db.wallet amount).bonus_amount := by
  rw [topup_bonus_tx db.wallet amount h] at hbt
  obtain rfl : _ = bt := Option.some.injEq .. ▸ hbt
  refine ⟨?_, rfl, ?_, rfl, ?_⟩
  · have htx : (topup_db db amount).1.transactions =
        db.transactions ++ [(topup db.wallet amount).topup_transaction] ++
          (topup db.wallet amount).bonus_transaction.toList := rfl
    rw [topup_bonus_tx db.wallet amount h] at htx
    simpa [List.append_assoc] using htx
  · rw [topup_topup_tx]
    ring
  · show db.wallet.balance + (amount + _) = _
    ring

/-- Witness for C3 (amended): topup 1000 on a zero wallet — bonus 100, both
transactions record the window 0 to 1100, topup first then bonus. -/
theorem C3_topup_transaction_windows_witness :
    (topup_db { wallet := { balance := 0, reserved_balance := 0 },
                transactions := [] } 1000).1.transactions =
      ({ wallet := { balance := 0, reserved_balance := 0 },
         transactions := [] } : WalletDB).transactions ++
        [(topup ({ wallet := { balance := 0, reserved_balance := 0 },
                   transactions := [] } : WalletDB).wallet 1000).topup_transaction,
         { transaction_type := .bonus
           amount := 100
           balance_before := 0
           balance_after := 1100
           session_id := none }] ∧
    (topup ({ wallet := { balance := 0, reserved_balance := 0 },
              transactions := [] } : WalletDB).wallet 1000).topup_transaction.balance_before
      = 0 ∧
    (topup ({ wallet := { balance := 0, reserved_balance := 0 },
              transactions := [] } : WalletDB).wallet 1000).topup_transaction.balance_after =
      0 + 1000 + (topup ({ wallet := { balance := 0, reserved_balance := 0 },
                           transactions := [] } : WalletDB).wallet 1000).bonus_amount ∧
    ({ transaction_type := .bonus
       amount := 100
       balance_before := 0
       balance_after := 1100
       session_id := none } : WalletTransaction).balance_before = 0 ∧
    ({ transaction_type := .bonus
       amount := 100
       balance_before := 0
       balance_after := 1100
       session_id := none } : WalletTransaction).balance_after =
      0 + 1000 + (topup ({ wallet := { balance := 0, reserved_balance := 0 },
                           transactions := [] } : WalletDB).wallet 1000).bonus_amount :=
  C3_topup_transaction_windows
    { wallet := { balance := 0, reserved_balance := 0 }, transactions := [] } 1000
    { transaction_type := .bonus
      amount := 100
      balance_before := 0
      balance_after := 1100
      session_id := none }
    (by norm_num [topup, TOPUP_BONUS_TIER_1_AMOUNT, TOPUP_BONUS_TIER_2_AMOUNT,
      TOPUP_BONUS_TIER_1_PERCENTAGE, TOPUP_BONUS_TIER_2_PERCENTAGE])
    (by norm_num [topup, TOPUP_BONUS_TIER_1_AMOUNT, TOPUP_BONUS_TIER_2_AMOUNT,
      TOPUP_BONUS_TIER_1_PERCENTAGE, TOPUP_BONUS_TIER_2_PERCENTAGE])

/-- Claim C7: `topup` credits `amount + bonus` where the bonus is 20% of the
amount when `amount ≥ 2000`, 10% when `amount ≥ 1000`, and 0 otherwise; in
particular 1000 → bonus 100 (total 1100), 2000 → bonus 400 (total 2400),
500 → bonus 0 (total 500). -/
theorem C7_topup_bonus_tiers (w : Wallet) (amount : Money) :
    (topup w amount).bonus_amount =
      (if amount ≥ 2000 then amount * 20 / 100
       else if amount ≥ 1000 then amount * 10 / 100
       else 0) ∧
    (topup w amount).wallet.balance =
      w.balance + amount + (topup w amount).bonus_amount ∧
    (topup w amount).wallet.reserved_balance = w.reserved_balance ∧
    (topup w amount).total_amount = amount + (topup w amount).bonus_amount ∧
    (topup freshWallet 1000).bonus_amount = 100 ∧
    (topup freshWallet 1000).total_amount = 1100 ∧
    (topup freshWallet 2000).bonus_amount = 400 ∧
    (topup freshWallet 2000).total_amount = 2400 ∧
    (topup freshWallet 500).bonus_amount = 0 ∧
    (topup freshWallet 500).total_amount = 500 := by
  refine ⟨?_, ?_, ?_, rfl, ?_, ?_, ?_, ?_, ?_, ?_⟩
  · simp only [topup, TOPUP_BONUS_TIER_1_AMOUNT, TOPUP_BONUS_TIER_2_AMOUNT,
      TOPUP_BONUS_TIER_1_PERCENTAGE, TOPUP_BONUS_TIER_2_PERCENTAGE]
    split_ifs <;> rfl
  · rw [topup_wallet_eq]
    show w.balance + (amount + _) = _
    ring
  · rw [topup_wallet_eq]
  all_goals
    norm_num [topup, freshWallet, get_or_create_wallet,
      TOPUP_BONUS_TIER_1_AMOUNT, TOPUP_BONUS_TIER_2_AMOUNT,
      TOPUP_BONUS_TIER_1_PERCENTAGE, TOPUP_BONUS_TIER_2_PERCENTAGE]

/-- Claim C5: `reserve_balance` fails with `InsufficientBalance` — carrying
both the available balance and the required amount — exactly when
`available = balance − reserved_balance < amount`; otherwise it grows
`reserved_balance` by `amount`, leaves `balance` unchanged, and appends
exactly one reserve-type transaction whose before/after snapshot the
`reserved_balance` field around the increase. -/
theorem C5_reserve_spec (db : WalletDB) (amount : Money) (sid : Option Nat) :
    (db.wallet.balance - db.wallet.reserved_balance < amount →
      reserve_balance_db db amount sid =
        .error (.insufficientBalance
          (db.wallet.balance - db.wallet.reserved_balance) amount)) ∧
    (¬ db.wallet.balance - db.wallet.reserved_balance < amount →
      reserve_balance_db db amount sid =
        .ok { wallet :=
                { db.wallet with
                    reserved_balance := db.wallet.reserved_balance + amount }
              transactions := db.transactions ++
                [{ transaction_type := .reserve
                   amount := amount
                   balance_before := db.wallet.reserved_balance
                   balance_after := db.wallet.reserved_balance + amount
                   session_id := sid }] }) := by
  constructor
  · intro h
    simp only [reserve_balance_db, reserve_balance]
    rw [if_pos h]
  · intro h
    simp only [reserve_balance_db, reserve_balance]
    rw [if_neg h]

/-- Witness for C5: on a wallet holding 10 with nothing reserved, reserving
20 fails carrying (available 10, required 20), while reserving 5 earmarks 5
and appends the reserve transaction over the reserved-balance window
0 to 5. -/
theorem C5_reserve_spec_witness :
    reserve_balance_db
        { wallet := { balance := 10, reserved_balance := 0 }, transactions := [] }
        20 none =
      .error (.insufficientBalance 10 20) ∧
    reserve_balance_db
        { wallet := { balance := 10, reserved_balance := 0 }, transactions := [] }
        5 none =
      .ok { wallet := { balance := 10, reserved_balance := 5 }
            transactions :=
              [{ transaction_type := .reserve
                 amount := 5
                 balance_before := 0
                 balance_after := 5
                 session_id := none }] } := by
  constructor
  · have h :=
      (C5_reserve_spec
        { wallet := { balance := 10, reserved_balance := 0 }, transactions := [] }
        20 none).1 (by norm_num)
    norm_num at h
    exact h
  · have h :=
      (C5_reserve_spec
        { wallet := { balance := 10, reserved_balance := 0 }, transactions := [] }
        5 none).2 (by norm_num)
    norm_num at h
    exact h

/-- Claim C6: on a wallet with `reserved_balance ≥ 0`, `balance ≥ amount`
and available balance at least `amount`, `reserve_balance amount` followed
immediately by `finalize_reservation (reserved := amount, actual := amount)`
succeeds, leaves `balance` reduced by exactly `amount`, and returns
`reserved_balance` to its pre-reserve value. -/
theorem C6_reserve_then_finalize (w : Wallet) (amount : Money) (sid : Nat)
    (h0 : 0 ≤ w.reserved_balance) (h1 : amount ≤ w.balance)
    (h2 : amount ≤ w.balance - w.reserved_balance) :
    Except.bind (reserve_balance w amount (some sid))
        (fun p => finalize_reservation p.1 amount amount sid) =
      .ok ({ balance := w.balance - amount,
             reserved_balance := w.reserved_balance },
           { transaction_type := .charge
             amount := amount
             balance_before := w.balance
             balance_after := w.balance - amount
             session_id := some sid }) := by
  have hc : ¬ (w.balance - w.reserved_balance < amount) := not_lt.mpr h2
  simp only [reserve_balance]
  rw [if_neg hc]
  simp only [Except.bind, finalize_reservation, ge_iff_le]
  rw [if_pos (by simp; linarith : amount ≤
        ({ w with reserved_balance := w.reserved_balance + amount } : Wallet).reserved_balance)]
  rw [if_neg (by simp; linarith : ¬
        ({ w with reserved_balance := w.reserved_balance + amount } : Wallet).balance < amount)]
  simp

/-- Witness for C6: wallet (balance 100, reserved 20), amount 50 — the
composite leaves balance 50 and reserved 20, with the charge transaction
over 100 to 50. -/
theorem C6_reserve_then_finalize_witness :
    Except.bind (reserve_balance { balance := 100, reserved_balance := 20 } 50 (some 3))
        (fun p => finalize_reservation p.1 50 50 3) =
      .ok ({ balance := 50, reserved_balance := 20 },
           { transaction_type := .charge
             amount := 50
             balance_before := 100
             balance_after := 50
             session_id := some 3 }) := by
  have h := C6_reserve_then_finalize
    { balance := 100, reserved_balance := 20 } 50 3
    (by norm_num) (by norm_num) (by norm_num)
  norm_num at h
  exact h

/-- Claim C9: `calculate_cost` is `rate × duration` in exact decimal
arithmetic — 2.00/min for standard (15 min → 30.00) and 40.00/min for
realtime (10 min → 400.00) — and fails with `InvalidParameter` for every
other mode, without computing a cost. -/
theorem C9_calculate_cost (mode : String) (d : Nat) :
    calculate_cost ("standard") d = .ok (2 * (d : Money)) ∧
    calculate_cost ("realtime") d = .ok (40 * (d : Money)) ∧
    calculate_cost ("standard") 15 = .ok 30 ∧
    calculate_cost ("realtime") 10 = .ok 400 ∧
    (strLower mode ≠ ("standard") → strLower mode ≠ ("realtime") →
      calculate_cost mode d = .error (.invalidParameter ("Invalid mode"))) := by
  refine ⟨?_, ?_, ?_, ?_, ?_⟩
  · simp only [calculate_cost, VOICE_COACHING_STANDARD_COST_PER_MINUTE]
    rw [if_pos (by decide : strLower ("standard") = ("standard"))]
  · simp only [calculate_cost, VOICE_COACHING_REALTIME_COST_PER_MINUTE]
    rw [if_neg (by decide : ¬ strLower ("realtime") = ("standard"))]
    rw [if_pos (by decide : strLower ("realtime") = ("realtime"))]
  · simp only [calculate_cost, VOICE_COACHING_STANDARD_COST_PER_MINUTE]
    rw [if_pos (by decide : strLower ("standard") = ("standard"))]
    norm_num
  · simp only [calculate_cost, VOICE_COACHING_REALTIME_COST_PER_MINUTE]
    rw [if_neg (by decide : ¬ strLower ("realtime") = ("standard"))]
    rw [if_pos (by decide : strLower ("realtime") = ("realtime"))]
    norm_num
  · intro h1 h2
    simp only [calculate_cost]
    rw [if_neg h1, if_neg h2]

/-- Witness for C9: mode `french` is rejected with `InvalidParameter`. -/
theorem C9_calculate_cost_witness :
    calculate_cost ("french") 7 = .error (.invalidParameter ("Invalid mode")) :=
  (C9_calculate_cost ("french") 7).2.2.2.2 (by decide) (by decide)

/-- Claim C8: `start_session` validates before touching storage and rolls
back on reservation failure.  For the voice service: an out-of-bounds
duration is rejected with the store unchanged; with valid parameters, when
the available balance is below the estimated cost the whole operation fails
with `InsufficientBalance` and the store (sessions and wallet) is returned
unchanged.  For the video service: when the available balance is below the
video's estimated cost the operation fails the same way with the store
unchanged. -/
theorem C8_start_session_rollback (db : VoiceDB) (mode track language : String)
    (dur sid : Nat) (c : Money) (dbv : VideoDB) (vid vlang : String)
    (vsid : Nat) (md : VideoMetadata) :
    (dur < MIN_VOICE_SESSION_DURATION →
      VoiceCoachingService.start_session db mode track language dur sid =
        (db, .error (.invalidParameter ("Duration must be at least the minimum")))) ∧
    (MAX_VOICE_SESSION_DURATION < dur →
      VoiceCoachingService.start_session db mode track language dur sid =
        (db, .error (.invalidParameter ("Duration must not exceed the maximum")))) ∧
    (MIN_VOICE_SESSION_DURATION ≤ dur → dur ≤ MAX_VOICE_SESSION_DURATION →
      calculate_cost mode dur = .ok c →
      db.wallet.balance - db.wallet.reserved_balance < c →
      VoiceCoachingService.start_session db mode track language dur sid =
        (db, .error (.insufficientBalance
          (db.wallet.balance - db.wallet.reserved_balance) c))) ∧
    (get_video_metadata vid = some md →
      dbv.wallet.balance - dbv.wallet.reserved_balance <
        VIDEO_SESSION_COST_PER_MINUTE * (md.duration_minutes : Money) →
      VideoSessionService.start_session dbv vid vlang vsid =
        (dbv, .error (.insufficientBalance
          (dbv.wallet.balance - dbv.wallet.reserved_balance)
          (VIDEO_SESSION_COST_PER_MINUTE * (md.duration_minutes : Money))))) := by
  refine ⟨?_, ?_, ?_, ?_⟩
  · intro h
    simp only [VoiceCoachingService.start_session]
    rw [if_pos h]
  · intro h
    have h1 : ¬ (dur < MIN_VOICE_SESSION_DURATION) := by
      simp only [MIN_VOICE_SESSION_DURATION, MAX_VOICE_SESSION_DURATION] at h ⊢
      omega
    simp only [VoiceCoachingService.start_session]
    rw [if_neg h1, if_pos h]
  · intro hmin hmax hcost havail
    have h1 : ¬ (dur < MIN_VOICE_SESSION_DURATION) := Nat.not_lt.mpr hmin
    have h2 : ¬ (dur > MAX_VOICE_SESSION_DURATION) := Nat.not_lt.mpr hmax
    have hmode : strLower mode = ("standard") ∨ strLower mode = ("realtime") := by
      by_contra hcon
      push_neg at hcon
      simp only [calculate_cost] at hcost
      rw [if_neg hcon.1, if_neg hcon.2] at hcost
      exact absurd hcost (by simp)
    simp only [VoiceCoachingService.start_session]
    rw [if_neg h1, if_neg h2, if_neg (not_not_intro hmode), hcost]
    simp only [reserve_balance]
    rw [if_pos havail]
  · intro hmd havail
    simp only [VideoSessionService.start_session, hmd]
    simp only [reserve_balance]
    rw [if_pos havail]

/-- Witness for C8: from an empty wallet, a 2-minute voice session is
rejected on duration, a 61-minute one on the upper bound, a valid 15-minute
standard session (cost 30) fails with `InsufficientBalance` leaving the
store unchanged, and the 20-minute video (cost 300) fails the same way. -/
theorem C8_start_session_rollback_witness :
    VoiceCoachingService.start_session
        { wallet := { balance := 0, reserved_balance := 0 },
          transactions := [], sessions := [] }
        ("standard") ("caregiving") ("en") 2 0 =
      ({ wallet := { balance := 0, reserved_balance := 0 },
         transactions := [], sessions := [] },
       .error (.invalidParameter ("Duration must be at least the minimum"))) ∧
    VoiceCoachingService.start_session
        { wallet := { balance := 0, reserved_balance := 0 },
          transactions := [], sessions := [] }
        ("standard") ("caregiving") ("en") 61 0 =
      ({ wallet := { balance := 0, reserved_balance := 0 },
         transactions := [], sessions := [] },
       .error (.invalidParameter ("Duration must not exceed the maximum"))) ∧
    VoiceCoachingService.start_session
        { wallet := { balance := 0, reserved_balance := 0 },
          transactions := [], sessions := [] }
        ("standard") ("caregiving") ("en") 15 0 =
      ({ wallet := { balance := 0, reserved_balance := 0 },
         transactions := [], sessions := [] },
       .error (.insufficientBalance 0 30)) ∧
    VideoSessionService.start_session
        { wallet := { balance := 0, reserved_balance := 0 },
          transactions := [], sessions := [] }
        ("caregiving_n5_lesson_01_ja") ("ja") 0 =
      ({ wallet := { balance := 0, reserved_balance := 0 },
         transactions := [], sessions := [] },
       .error (.insufficientBalance 0 300)) := by
  refine ⟨?_, ?_, ?_, ?_⟩
  · exact
      (C8_start_session_rollback
        { wallet := { balance := 0, reserved_balance := 0 },
          transactions := [], sessions := [] }
        ("standard") ("caregiving") ("en") 2 0 30
        { wallet := { balance := 0, reserved_balance := 0 },
          transactions := [], sessions := [] }
        ("caregiving_n5_lesson_01_ja") ("ja") 0 caregivingN5Lesson01).1
      (by norm_num [MIN_VOICE_SESSION_DURATION])
  · exact
      (C8_start_session_rollback
        { wallet := { balance := 0, reserved_balance := 0 },
          transactions := [], sessions := [] }
        ("standard") ("caregiving") ("en") 61 0 30
        { wallet := { balance := 0, reserved_balance := 0 },
          transactions := [], sessions := [] }
        ("caregiving_n5_lesson_01_ja") ("ja") 0 caregivingN5Lesson01).2.1
      (by norm_num [MAX_VOICE_SESSION_DURATION])
  · have h :=
      (C8_start_session_rollback
        { wallet := { balance := 0, reserved_balance := 0 },
          transactions := [], sessions := [] }
        ("standard") ("caregiving") ("en") 15 0 30
        { wallet := { balance := 0, reserved_balance := 0 },
          transactions := [], sessions := [] }
        ("caregiving_n5_lesson_01_ja") ("ja") 0 caregivingN5Lesson01).2.2.1
      (by norm_num [MIN_VOICE_SESSION_DURATION])
      (by norm_num [MAX_VOICE_SESSION_DURATION])
      (by
        simp only [calculate_cost, VOICE_COACHING_STANDARD_COST_PER_MINUTE]
        rw [if_pos (by decide : strLower ("standard") = ("standard"))]
        norm_num)
      (by norm_num)
    norm_num at h
    exact h
  · have h :=
      (C8_start_session_rollback
        { wallet := { balance := 0, reserved_balance := 0 },
          transactions := [], sessions := [] }
        ("standard") ("caregiving") ("en") 15 0 30
        { wallet := { balance := 0, reserved_balance := 0 },
          transactions := [], sessions := [] }
        ("caregiving_n5_lesson_01_ja") ("ja") 0 caregivingN5Lesson01).2.2.2
      (by simp [get_video_metadata])
      (by norm_num [caregivingN5Lesson01, VIDEO_SESSION_COST_PER_MINUTE])
    norm_num [caregivingN5Lesson01, VIDEO_SESSION_COST_PER_MINUTE] at h
    exact h

/-- Replacing the found session (same id) makes `find?` return the
replacement. -/
theorem find?_replace (l : List VideoSession) (sid : Nat) (s s2 : VideoSession)
    (hfind : l.find? (fun t => t.session_id = sid) = some s)
    (hid : s2.session_id = s.session_id) :
    (l.map (fun t => if t.session_id = s2.session_id then s2 else t)).find?
      (fun t => t.session_id = sid) = some s2 := by
  have hs : s.session_id = sid := by simpa using List.find?_some hfind
  induction l with
  | nil => simp at hfind
  | cons hd tl ih =>
    rw [List.map_cons]
    by_cases hhd : hd.session_id = sid
    · rw [List.find?_cons_of_pos _ (by simpa using hhd)] at hfind
      obtain rfl : hd = s := by simpa using hfind
      rw [if_pos (by rw [hid])]
      rw [List.find?_cons_of_pos _ (by simpa using hid.trans hs)]
    · rw [List.find?_cons_of_neg _ (by simpa using hhd)] at hfind
      rw [if_neg (by rw [hid, hs]; exact hhd)]
      rw [List.find?_cons_of_neg _ (by simpa using hhd)]
      exact ih hfind

/-- `findSession` after `putSession` with a same-id session finds the
replacement. -/
theorem findSession_putSession (db : VideoDB) (sid : Nat) (s s2 : VideoSession)
    (hfind : findSession db sid = some s)
    (hid : s2.session_id = s.session_id) :
    ({ db with sessions := putSession db s2 } : VideoDB).sessions.find?
      (fun t => t.session_id = sid) = some s2 :=
  find?_replace db.sessions sid s s2 hfind hid

/-- A completed video session as stored after a settled run (progress 50%). -/
def completedSession : VideoSession :=
  { session_id := 7
    duration_minutes := 20
    cost := 300
    status := .completed
    reserved_at := true
    started_at := true
    completed_at := true
    video_id := ("caregiving_n5_lesson_01_ja")
    language := ("ja")
    track := ("caregiving")
    title := ("Caregiving Basics - N5 Lesson 1")
    timeline_events := caregivingN5Lesson01.timeline_events
    answers := []
    progress_current_timestamp := 0
    progress_completion_percentage := 50 }

/-- A store holding only the completed session. -/
def completedDB : VideoDB :=
  { wallet := { balance := 0, reserved_balance := 0 }, transactions := [],
    sessions := [completedSession] }

/-- Claim C4, counterexample: on a `completed` session, `update_progress`
does not fail with `InvalidState` — it succeeds and overwrites the stored
progress (50 becomes 80) while the status stays `completed`. -/
theorem C4_counterexample :
    (update_progress completedDB 7 900 80).2 = .ok (900, 80) ∧
    ((update_progress completedDB 7 900 80).1.sessions.map
      (fun s => s.progress_completion_percentage)) = [80] ∧
    ((update_progress completedDB 7 900 80).1.sessions.map
      (fun s => s.status)) = [.completed] ∧
    completedDB.sessions.map (fun s => s.progress_completion_percentage) = [50] := by
  refine ⟨?_, ?_, ?_, ?_⟩ <;>
    norm_num [update_progress, findSession, putSession, completedDB,
      completedSession, List.find?,
      (show SessionStatus.completed ≠ SessionStatus.reserved by decide)]

/-- Claim C4 (amended): `answer_question` fails with `InvalidState` and
leaves the store unchanged whenever the session status is outside
{reserved, active}; `update_progress` performs no status check — for any
existing session (including completed ones) it succeeds and overwrites the
progress; and on a `reserved` session an interaction transitions it to
`active` stamping `started_at` — shown for `update_progress` always and for
`answer_question` whenever the call succeeds. -/
theorem C4_interaction_state_machine (db : VideoDB) (sid ts : Nat) (cp : Money)
    (q a m : String) (ev : AssessmentInput → String) (s : VideoSession)
    (db2 : VideoDB) (rec : AnswerRecord)
    (hfind : findSession db sid = some s) :
    (¬ (s.status = .reserved ∨ s.status = .active) →
      answer_question db sid q a m ev = (db, .error (.invalidState s.status))) ∧
    ((update_progress db sid ts cp).2 = .ok (ts, cp)) ∧
    (s.status = .reserved →
      findSession (update_progress db sid ts cp).1 sid =
        some { s with
                 progress_current_timestamp := ts
                 progress_completion_percentage := cp
                 status := .active
                 started_at := true }) ∧
    (s.status = .reserved →
      answer_question db sid q a m ev = (db2, .ok rec) →
      findSession db2 sid =
        some { s with
                 status := .active
                 started_at := true
                 answers := s.answers ++ [(q, rec)] }) := by
  refine ⟨?_, ?_, ?_, ?_⟩
  · intro h
    simp only [answer_question, hfind]
    rw [if_pos h]
  · simp only [update_progress, hfind]
  · intro hst
    simp only [update_progress, hfind]
    rw [if_pos (show ({ s with
          progress_current_timestamp := ts
          progress_completion_percentage := cp } : VideoSession).status =
        .reserved from hst)]
    exact findSession_putSession db sid s _ hfind rfl
  · intro hst heq
    simp only [answer_question, hfind] at heq
    rw [if_neg (not_not_intro (Or.inl hst))] at heq
    rw [if_pos hst] at heq
    dsimp only at heq
    cases hq : s.timeline_events.find? (fun e => e.event_id = q) with
    | none =>
        rw [hq] at heq
        simp at heq
    | some question =>
        rw [hq] at heq
        dsimp only at heq
        by_cases hty : question.etype = ("question")
        · rw [if_neg (not_not_intro hty)] at heq
          injection heq with hdb hrec
          injection hrec with hrec
          subst hdb
          subst hrec
          exact findSession_putSession db sid s _ hfind rfl
        · rw [if_pos hty] at heq
          simp at heq

/-- A freshly reserved video session for the caregiving lesson. -/
def reservedSession : VideoSession :=
  { session_id := 5
    duration_minutes := 20
    cost := 300
    status := .reserved
    reserved_at := true
    started_at := false
    completed_at := false
    video_id := ("caregiving_n5_lesson_01_ja")
    language := ("ja")
    track := ("caregiving")
    title := ("Caregiving Basics - N5 Lesson 1")
    timeline_events := caregivingN5Lesson01.timeline_events
    answers := []
    progress_current_timestamp := 0
    progress_completion_percentage := 0 }

/-- A store holding only the reserved session. -/
def reservedDB : VideoDB :=
  { wallet := { balance := 0, reserved_balance := 0 }, transactions := [],
    sessions := [reservedSession] }

/-- Witness for C4 (amended): `answer_question` on the completed session
fails with `InvalidState`, and `update_progress` on the reserved session
activates it, stamps `started_at` and stores the new progress. -/
theorem C4_interaction_state_machine_witness :
    answer_question completedDB 7 ("q1") ("ans") ("text") (fun _ => ("ok")) =
      (completedDB, .error (.invalidState .completed)) ∧
    findSession (update_progress reservedDB 5 600 50).1 5 =
      some { reservedSession with
               progress_current_timestamp := 600
               progress_completion_percentage := 50
               status := .active
               started_at := true } := by
  constructor
  · exact
      (C4_interaction_state_machine completedDB 7 0 0 ("q1") ("ans") ("text")
        (fun _ => ("ok")) completedSession completedDB
        { answer := (""), answer_mode := (""), assessment := ("") }
        (by simp [findSession, completedDB, completedSession, List.find?])).1
      (by decide)
  · exact
      (C4_interaction_state_machine reservedDB 5 600 50 ("q1") ("ans") ("text")
        (fun _ => ("ok")) reservedSession reservedDB
        { answer := (""), answer_mode := (""), assessment := ("") }
        (by simp [findSession, reservedDB, reservedSession, List.find?])).2.2.1
      rfl

end XploreKodo
